import Mathlib

/-!
Verification development for the conversation-orchestration core of the
FassimoV3 prototype (Next.js + Genkit).

The embedding covers:
* the Flow Router `handleUserMessage` (src/unnamed/part_005, the latest
  revision of src/src/actions/handle-user-message.ts that type-checks),
  together with its helpers `resetConversationState`, `addMessageToHistory`,
  `createOnboardingTask` and `fetchAndFormatTasks`;
* the Interview Engine wrapper `conductOnboardingInterview` and the Genkit
  flow `conductOnboardingInterviewFlow` (src/unnamed/part_008, the revision
  with the Stripe question and the `answeredStripe` flag), including the zod
  output-schema boundary;
* the Task Store functions `internalAddTask` / `internalUpdateTask`
  (src/src/ai/flows/task-management/get-tasks.ts) and `updateTaskFlow`
  (src/src/ai/flows/task-management/update-task.ts).

Modelling conventions:
* timestamps and date payloads are modelled as `Nat` (epoch milliseconds);
  ISO-8601 rendering and locale rendering are abstracted into the
  environment (`Env.fmtDate`, `Env.fmtTime`);
* promises are sequenced, so stateful code becomes explicit state passing;
  a JavaScript `throw` is an `Except.error` carrying the error message;
* every call that leaves the orchestration core (the LLM-backed flows
  `parseUserMessage`, `triageUserMessage`, `praiseAgent`, the raw output of
  `onboardingInterviewPrompt`, and the id generated by `addTask`) is an
  oracle supplied in `Env`;
* the decision procedure of the interview prompt itself is executed by a
  language model in the source; `interviewScan` below is a deterministic
  model of it, see its doc comment.
-/

namespace Fassimo

/-- Sender tags of a conversation turn, from the zod `MessageSchema`
(`sender: z.enum(['user', 'ai', 'system', 'action'])`). -/
inductive Sender where
  | user
  | ai
  | system
  | action
deriving DecidableEq, Repr

/-- One turn of conversation history (`Message` in the source). -/
structure Message where
  sender : Sender
  text : String
deriving DecidableEq, Repr

/-- Task priority (`z.enum(['high', 'medium', 'low'])`). -/
inductive Priority where
  | high
  | medium
  | low
deriving DecidableEq, Repr

/-- A stored task, from the `TaskSchema` of get-tasks.ts and the `tasks`
field of `ConversationState`.  `dueDate` is an optional timestamp (the
source stores an ISO-8601 string; the date payload is modelled as epoch
milliseconds). -/
structure Task where
  id : String
  description : String
  priority : Priority
  dueDate : Option Nat
  completed : Bool
deriving DecidableEq, Repr

/-- The flows `currentFlow` can name in part_005
(`'onboarding' | 'praise' | 'create_product' | 'view_tasks' | null`);
`null` is `Option.none` around this type. -/
inductive Flow where
  | onboarding
  | praise
  | create_product
  | view_tasks
deriving DecidableEq, Repr

/-- The module-level `conversationState` of handle-user-message.ts. -/
structure ConversationState where
  currentFlow : Option Flow
  history : List Message
  tasks : List Task
deriving DecidableEq, Repr

/-- One selectable button offered with a response. -/
structure ActionOption where
  label : String
  trigger : String
deriving DecidableEq, Repr

/-- The `HandleUserMessageResponse` interface:
`{ responseText: string, actions?: {label, trigger}[] }`. -/
structure HandleResponse where
  responseText : String
  actions : Option (List ActionOption)
deriving DecidableEq, Repr

/-- Inbound channels of `handleUserMessage`. -/
inductive Channel where
  | email
  | whatsapp
  | voice
  | chat
deriving DecidableEq, Repr

/-- The raw `onboardingData` object of the prompt output before any
validation (`OnboardingDataSchema` with every field optional). -/
structure RawOnboardingData where
  name : Option String
  goal : Option String
  channel : Option String
  hasStripe : Option Bool
deriving DecidableEq, Repr

/-- The raw output of `onboardingInterviewPrompt` as a JSON-shaped value,
before the zod schema constrains `channel`
(`ConductOnboardingInterviewOutputSchema`). -/
structure RawPromptOutput where
  nextQuestion : Option String
  isComplete : Bool
  onboardingData : Option RawOnboardingData
  answeredStripe : Option Bool
deriving DecidableEq, Repr

/-- The output of `conductOnboardingInterviewFlow` after validation and
normalisation: `answeredStripe` is always an explicit boolean on every
return path of the flow and of its error wrapper. -/
structure FlowOutput where
  nextQuestion : Option String
  isComplete : Bool
  onboardingData : Option RawOnboardingData
  answeredStripe : Bool
deriving DecidableEq, Repr

/-- Valid channel values, from `z.enum(['Chat', 'Email', 'Whatsapp'])`. -/
def channelValid (c : String) : Bool :=
  c = "Chat" || c = "Email" || c = "Whatsapp"

/-- JavaScript `String.prototype.trim`: drop whitespace from both ends. -/
def jsTrim (s : String) : String :=
  ⟨((s.data.dropWhile Char.isWhitespace).reverse.dropWhile Char.isWhitespace).reverse⟩

/-- The zod output-schema boundary of the prompt call: a raw output whose
`onboardingData.channel` is present but not one of the declared enum values
does not parse, and the prompt call fails (Genkit surfaces a schema
violation as an error / missing output, which the flow turns into a throw). -/
def schemaDecode (r : RawPromptOutput) : Except String RawPromptOutput :=
  match r.onboardingData with
  | none => .ok r
  | some d =>
    match d.channel with
    | none => .ok r
    | some c =>
      if channelValid c then .ok r
      else .error "Output did not conform to schema: invalid channel value."

/-- The validation and normalisation block of `conductOnboardingInterviewFlow`
(part_008, middle revision): complete without `onboardingData` throws;
`answeredStripe === true` with a non-boolean `hasStripe` throws; a present
`nextQuestion` is cleared on completion and `answeredStripe` is forced to
`false` unless the prompt set it to exactly `true`; not complete with a
missing or blank `nextQuestion` throws, and any stray `onboardingData` or
`answeredStripe` is cleared. -/
def validateOutput (o : RawPromptOutput) : Except String FlowOutput :=
  if o.isComplete then
    match o.onboardingData with
    | none => .error "Interview marked complete but onboardingData is missing."
    | some d =>
      if o.answeredStripe = some true ∧ d.hasStripe = none then
        .error "Stripe answered but hasStripe boolean is missing in completed data."
      else
        .ok { nextQuestion := none
              isComplete := true
              onboardingData := some d
              answeredStripe := o.answeredStripe = some true }
  else
    match o.nextQuestion with
    | none => .error "Interview not complete but nextQuestion is invalid or missing."
    | some q =>
      if jsTrim q = "" then
        .error "Interview not complete but nextQuestion is invalid or missing."
      else
        .ok { nextQuestion := some q
              isComplete := false
              onboardingData := none
              answeredStripe := false }

/-- The Genkit flow `conductOnboardingInterviewFlow`: the prompt may return
no output (`none`), the returned output passes the schema boundary and the
validation block, and every error raised inside the try block is rethrown
with the flow's message prefix. -/
def conductOnboardingInterviewFlow (raw : Option RawPromptOutput) :
    Except String FlowOutput :=
  let inner : Except String FlowOutput :=
    match raw with
    | none => .error "Onboarding Interview prompt did not return an output."
    | some r =>
      match schemaDecode r with
      | .error e => .error e
      | .ok r2 => validateOutput r2
  match inner with
  | .error e => .error ("Error in conductOnboardingInterviewFlow calling prompt: " ++ e)
  | .ok v => .ok v

/-- The apology question returned by the wrapper when the flow throws. -/
def apologyText : String :=
  "Sorry, I encountered an issue during the interview. Let\x27s try starting the onboarding again."

/-- The exported wrapper `conductOnboardingInterview`: it never propagates an
exception; on any flow error it returns the default error state
`isComplete = true`, no data, `answeredStripe = false`, apology text. -/
def conductOnboardingInterview (raw : Option RawPromptOutput) : FlowOutput :=
  match conductOnboardingInterviewFlow raw with
  | .ok v => v
  | .error _ =>
    { nextQuestion := some apologyText
      isComplete := true
      onboardingData := none
      answeredStripe := false }

/-- Question text for the name step (`QUESTIONS.name`). -/
def qName : String := "What is your name?"

/-- Question text for the goal step (`QUESTIONS.goal`). -/
def qGoal : String := "What is your goal for the 30 day free trial?"

/-- Question text for the channel step (`QUESTIONS.channel`). -/
def qChannel : String := "What is your preferred channel of communication?"

/-- Channel question with its options marker (`QUESTIONS.channelWithOptions`). -/
def qChannelOpts : String :=
  "What is your preferred channel of communication? [OPTIONS: Chat, Email, Whatsapp]"

/-- Question text for the Stripe step (`QUESTIONS.stripe`). -/
def qStripe : String := "Do you have a Stripe account?"

/-- Stripe question with its options marker (`QUESTIONS.stripeWithOptions`). -/
def qStripeOpts : String := "Do you have a Stripe account? [OPTIONS: Yes, No]"

/-- Position of the sequential scan over the fixed question sequence:
either still waiting for question `i` to be asked, or waiting for a valid
answer to it, or all four questions validly answered. -/
inductive ScanPhase where
  | askName
  | awaitName
  | askGoal
  | awaitGoal
  | askChannel
  | awaitChannel
  | askStripe
  | awaitStripe
  | complete
deriving DecidableEq, Repr

/-- Accumulator of the sequential history scan. -/
structure ScanAcc where
  phase : ScanPhase
  nameAns : Option String
  goalAns : Option String
  channelAns : Option String
  stripeAns : Option String
deriving DecidableEq, Repr

/-- Whether a sender counts as a reply from the user side (the prompt
accepts answers from `user` or `action` turns). -/
def isReply : Sender → Bool
  | .user => true
  | .action => true
  | .ai => false
  | .system => false

/-- Initial scan accumulator: nothing asked, nothing answered. -/
def scanInit : ScanAcc := ⟨.askName, none, none, none, none⟩

/-- One step of the sequential scan, processing a single history turn.
While waiting for question `i` to be asked, only an `ai` turn carrying
exactly the (marker-stripped) question text advances the scan; while
waiting for an answer, the next `user`/`action` turn is taken as the answer
and is accepted only if valid for that question (non-empty free text for
name and goal, an exact choice for channel and Stripe); an invalid answer
sends the scan back to re-asking the same question. -/
def scanStep (acc : ScanAcc) (m : Message) : ScanAcc :=
  match acc.phase with
  | .askName =>
    if m.sender = .ai then
      if m.text = qName then { acc with phase := .awaitName } else acc
    else acc
  | .awaitName =>
    if isReply m.sender then
      if m.text = "" then { acc with phase := .askName }
      else { acc with phase := .askGoal, nameAns := some m.text }
    else acc
  | .askGoal =>
    if m.sender = .ai then
      if m.text = qGoal then { acc with phase := .awaitGoal } else acc
    else acc
  | .awaitGoal =>
    if isReply m.sender then
      if m.text = "" then { acc with phase := .askGoal }
      else { acc with phase := .askChannel, goalAns := some m.text }
    else acc
  | .askChannel =>
    if m.sender = .ai then
      if m.text = qChannel then { acc with phase := .awaitChannel } else acc
    else acc
  | .awaitChannel =>
    if isReply m.sender then
      if channelValid m.text then { acc with phase := .askStripe, channelAns := some m.text }
      else { acc with phase := .askChannel }
    else acc
  | .askStripe =>
    if m.sender = .ai then
      if m.text = qStripe then { acc with phase := .awaitStripe } else acc
    else acc
  | .awaitStripe =>
    if isReply m.sender then
      if m.text = "Yes" ∨ m.text = "No" then
        { acc with phase := .complete, stripeAns := some m.text }
      else { acc with phase := .askStripe }
    else acc
  | .complete => acc

/-- Text of the most recent turn satisfying a sender predicate. -/
def lastTextBy (p : Sender → Bool) (h : List Message) : Option String :=
  (h.reverse.find? (fun m => p m.sender)).map (fun m => m.text)

/-- Whether the Stripe question was answered on this very turn: the last
`ai` turn in history asked the Stripe question and the latest
`user`/`action` turn answered Yes or No (prompt step 8b / spec §4.2's
"most recent Turn pair"). -/
def stripeJustAnswered (h : List Message) : Bool :=
  lastTextBy (fun s => s = .ai) h = some qStripe ∧
    (lastTextBy isReply h = some "Yes" ∨ lastTextBy isReply h = some "No")

/-- Prompt output asking one question: not complete, no data,
`answeredStripe` false (prompt steps 4-7). -/
def askOutput (q : String) : RawPromptOutput :=
  { nextQuestion := some q, isComplete := false, onboardingData := none,
    answeredStripe := some false }

/-- Modelled from the spec: the Interview Engine's history-scanning
algorithm of spec §4.2 — in the source this decision procedure is carried
out by a language model following the instructions of
`onboardingInterviewPrompt` (part_008), so it exists in the repository only
as prompt text, not as executable code.  The model scans the history
sequentially for the four questions and their valid answers, asks the first
unanswered question (with the options marker for questions 3 and 4),
and on completion extracts the answers and reports
`answeredStripe` true iff the most recent turn pair is the Stripe question
followed by a Yes/No answer. -/
def interviewScan (h : List Message) : RawPromptOutput :=
  let acc := h.foldl scanStep scanInit
  match acc.phase with
  | .askName => askOutput qName
  | .awaitName => askOutput qName
  | .askGoal => askOutput qGoal
  | .awaitGoal => askOutput qGoal
  | .askChannel => askOutput qChannelOpts
  | .awaitChannel => askOutput qChannelOpts
  | .askStripe => askOutput qStripeOpts
  | .awaitStripe => askOutput qStripeOpts
  | .complete =>
    { nextQuestion := none
      isComplete := true
      onboardingData := some
        { name := acc.nameAns
          goal := acc.goalAns
          channel := acc.channelAns
          hasStripe := acc.stripeAns.map (fun a => a = "Yes") }
      answeredStripe := some (stripeJustAnswered h) }

/-- Trigger token starting the onboarding interview (`ONBOARDING_TRIGGER`). -/
def ONBOARDING_TRIGGER : String := "START_ONBOARDING_INTERVIEW"

/-- Trigger token starting the placeholder create-product flow
(`CREATE_PRODUCT_TRIGGER`). -/
def CREATE_PRODUCT_TRIGGER : String := "START_CREATE_PRODUCT"

/-- Trigger token resetting the conversation (`RESET_CONVERSATION_TRIGGER`). -/
def RESET_CONVERSATION_TRIGGER : String := "RESET_CONVERSATION"

/-- Trigger token requesting the task list (`VIEW_TASKLIST_TRIGGER`). -/
def VIEW_TASKLIST_TRIGGER : String := "VIEW_TASKLIST"

/-- Output of `triageUserMessage` (`TriageUserOutputSchema`); the router
reads only `isSpam`. -/
structure TriageOutput where
  sentiment : String
  isSpam : Bool
  topic : String
  priority : String
  routeToAgent : String
deriving DecidableEq, Repr

/-- Oracle environment for one `handleUserMessage` call: the results of
every call leaving the orchestration core.  A JavaScript `throw` from one
of those calls is an `Except.error` carrying the error message.
`promptOutput` is the raw structured output of `onboardingInterviewPrompt`
as a function of the history fed to it (`none` models a missing output);
`addTaskId` is the `taskId` generated by the `addTask` flow; `taskDb` is
the contents of the task flows' module-level `mockTaskDatabase` (a store
separate from the session state) at the moment the `getTasks` flow reads
it; `now` is `Date.now()` in epoch milliseconds; `fmtDate`/`fmtTime`
abstract the locale rendering
`toLocaleDateString`/`toLocaleTimeString`. -/
structure Env where
  promptOutput : List Message → Option RawPromptOutput
  parseResult : Except String Unit
  triageResult : Except String TriageOutput
  praiseResult : Except String (Option String)
  addTaskId : Except String String
  taskDb : List Task
  now : Nat
  fmtDate : Nat → String
  fmtTime : Nat → String

/-- The initial module-level state: no active flow, empty history, no
tasks. -/
def initialConversationState : ConversationState :=
  { currentFlow := none, history := [], tasks := [] }

/-- Helper `resetConversationState`: replaces the state with a fresh
initial state (tasks are reset too). -/
def resetConversationState : ConversationState := initialConversationState

/-- Helper `addMessageToHistory`: appends a turn unless its text is the
reset or view-tasklist trigger (those initiating tokens are never
retained). -/
def addMessageToHistory (s : ConversationState) (sender : Sender) (text : String) :
    ConversationState :=
  if text = RESET_CONVERSATION_TRIGGER ∨ text = VIEW_TASKLIST_TRIGGER then s
  else { s with history := s.history ++ [⟨sender, text⟩] }

/-- Milliseconds in one day. -/
def dayMs : Nat := 86400000

/-- date-fns `addDays` on an epoch-millisecond timestamp. -/
def addDays (d : Nat) (n : Nat) : Nat := d + n * dayMs

/-- Input of the `addTask` flow (`AddTaskInputSchema`). -/
structure AddTaskInput where
  description : String
  priority : Priority
  dueDate : Option Nat
deriving DecidableEq, Repr

/-- The task draft computed by `createOnboardingTask` from the completed
onboarding data, before it is submitted to the `addTask` flow:
`hasStripe === false` yields the create-account task with priority high and
a due date five days from now (`formatISO(addDays(new Date(), 5))`);
`hasStripe === true` yields the connect-account task with priority medium
and no due date; an undefined `hasStripe` yields no draft (the function
returns early and skips task creation). -/
def onboardingTaskDraft (data : RawOnboardingData) (now : Nat) : Option AddTaskInput :=
  match data.hasStripe with
  | some false =>
    some { description := "Create a Stripe account for payment processing."
           priority := .high
           dueDate := some (addDays now 5) }
  | some true =>
    some { description := "Connect your Stripe account in Settings > Payments."
           priority := .medium
           dueDate := none }
  | none => none

/-- Helper `createOnboardingTask`: computes the draft, submits it to the
`addTask` flow and pushes the created task (with the flow's `taskId`, or the
`temp-` fallback id when that is empty/falsy) onto the session's task list;
an error thrown by `addTask` is caught internally and leaves the state
unchanged. -/
def createOnboardingTask (env : Env) (s : ConversationState)
    (data : RawOnboardingData) : ConversationState :=
  match onboardingTaskDraft data env.now with
  | none => s
  | some draft =>
    match env.addTaskId with
    | .error _ => s
    | .ok tid =>
      let id := if tid = "" then "temp-" ++ toString env.now else tid
      { s with tasks := s.tasks ++
          [{ id := id
             description := draft.description
             priority := draft.priority
             dueDate := draft.dueDate
             completed := false }] }

/-- Rendering of a priority value (template interpolation of the enum). -/
def priorityText : Priority → String
  | .high => "high"
  | .medium => "medium"
  | .low => "low"

/-- One numbered entry of the formatted task list (the `forEach` body of
`fetchAndFormatTasks`): description, priority, the due line only when a due
date exists, and the completion status. -/
def formatTaskEntry (env : Env) (idx : Nat) (t : Task) : String :=
  toString (idx + 1) ++ ". " ++ t.description
    ++ "\n   - Priority: " ++ priorityText t.priority
    ++ (match t.dueDate with
        | some d => "\n   - Due: " ++ env.fmtDate d ++ " " ++ env.fmtTime d
        | none => "")
    ++ "\n   - Status: " ++ (if t.completed then "Completed" else "Pending")
    ++ "\n\n"

/-- The `getTasksFlow` mock database read of get-tasks.ts: returns a copy
of the module-level `mockTaskDatabase` (supplied for this call as
`Env.taskDb`).  The flow has no throw points, so its caller's catch
fallback is unreachable. -/
def getTasksFlow (db : List Task) : List Task := db

/-- Helper `fetchAndFormatTasks`: calls the `getTasks` flow — which reads
the task flows' own mock database, a store separate from the session
state — then reassigns the session's `tasks` field from the flow result
(`conversationState.tasks = tasksResult.tasks.map(...)`), and renders the
fetched list: an empty result renders as the explicit no-pending-tasks
message, otherwise as the numbered list, trimmed. -/
def fetchAndFormatTasks (env : Env) (s : ConversationState) :
    ConversationState × String :=
  let fetched := getTasksFlow env.taskDb
  let s2 := { s with tasks := fetched }
  if fetched.length = 0 then
    (s2, "You have no pending tasks.")
  else
    (s2, jsTrim ("Here is your current task list:\n\n"
      ++ String.join (fetched.enum.map (fun p => formatTaskEntry env p.1 p.2))))

/-- First index at which `pat` occurs as a contiguous sublist of `hay`. -/
def findSubstrPos (pat : List Char) : List Char → Option Nat
  | [] => if pat.isPrefixOf ([] : List Char) then some 0 else none
  | c :: t =>
    if pat.isPrefixOf (c :: t) then some 0
    else (findSubstrPos pat t).map (fun i => i + 1)

/-- The regex replace ` \[OPTIONS:.*?\]$` with the empty string: if the text
contains " [OPTIONS:" and ends with a closing bracket, everything from the
marker on is removed; otherwise the text is unchanged. -/
def stripOptionsMarker (s : String) : String :=
  match findSubstrPos " [OPTIONS:".data s.data with
  | some i => if s.data.getLast? = some ']' then ⟨s.data.take i⟩ else s
  | none => s

/-- The regex match ` \[OPTIONS: (.*?)\]$`: when the text carries a
well-formed options marker, the captured option list split on commas with
each option trimmed; otherwise no match. -/
def parseOptions (s : String) : Option (List String) :=
  match findSubstrPos " [OPTIONS: ".data s.data with
  | some i =>
    if s.data.getLast? = some ']' then
      some (((String.mk ((s.data.drop (i + 11)).dropLast)).splitOn ",").map jsTrim)
    else none
  | none => none

/-- JSON.stringify of the collected onboarding data with two-space
indentation: present fields in schema order, absent (undefined) fields
omitted. -/
def jsonOfData (d : RawOnboardingData) : String :=
  let strField : String → Option String → List String := fun k v =>
    match v with
    | some x => ["  \"" ++ k ++ "\": \"" ++ x ++ "\""]
    | none => []
  let fields :=
    strField "name" d.name ++ strField "goal" d.goal ++ strField "channel" d.channel
      ++ (match d.hasStripe with
          | some b => ["  \"hasStripe\": " ++ (if b then "true" else "false")]
          | none => [])
  "\x7b\n" ++ String.intercalate ",\n" fields ++ "\n\x7d"

/-- Sender classification of part_005: known triggers and known button
answers are tagged `action`, free text is tagged `user`. -/
def senderTypeOf (m : String) : Sender :=
  if m = ONBOARDING_TRIGGER ∨ m = CREATE_PRODUCT_TRIGGER ∨ m = "Yes" ∨ m = "No"
      ∨ m = "Chat" ∨ m = "Email" ∨ m = "Whatsapp" then
    .action
  else .user

/-- The incoming message as a history turn. -/
def msgOf (m : String) : Message := ⟨senderTypeOf m, m⟩

/-- State after the pre-dispatch history append: the tagged incoming turn is
appended unless it is the initial trigger of a flow that is not yet
active. -/
def preRouteState (s : ConversationState) (message : String) : ConversationState :=
  if (message = ONBOARDING_TRIGGER ∧ s.currentFlow ≠ some .onboarding)
      ∨ (message = CREATE_PRODUCT_TRIGGER ∧ s.currentFlow ≠ some .create_product) then
    s
  else addMessageToHistory s (senderTypeOf message) message

/-- The final summary text of a completed interview, embedding the collected
data as JSON plus a note about any task just created. -/
def finalOnboardingMessage (r : FlowOutput) (d : RawOnboardingData) : String :=
  "Onboarding complete! Here\x27s the collected information:\n```json\n"
    ++ jsonOfData d ++ "\n```"
    ++ (if r.answeredStripe then
          match d.hasStripe with
          | some false => "\n\nA task has been added to your list to create a Stripe account."
          | some true => "\n\nA task has been added to your list to connect your Stripe account."
          | none => ""
        else "")
    ++ "\nYou can view your tasks using the Tasklist button."

/-- The `case 'onboarding'` block of `handleUserMessage`: call the engine on
the current history; append the (marker-stripped) question to history when
one is returned; on completion create the follow-up task only when
`answeredStripe === true`, build and append the final summary, and reset
`currentFlow`; on completion without data, or on neither completion nor
question, emit the respective recovery message and reset `currentFlow`;
otherwise return the question with buttons parsed from its options
marker. -/
def onboardingBranch (env : Env) (s : ConversationState) :
    ConversationState × HandleResponse :=
  let r := conductOnboardingInterview (env.promptOutput s.history)
  let s1 :=
    match r.nextQuestion with
    | some q => addMessageToHistory s .ai (stripOptionsMarker q)
    | none => s
  if r.isComplete then
    match r.onboardingData with
    | some d =>
      let s2 := if r.answeredStripe then createOnboardingTask env s1 d else s1
      let finalMsg := finalOnboardingMessage r d
      let s3 := addMessageToHistory s2 .ai finalMsg
      ({ s3 with currentFlow := none }, { responseText := finalMsg, actions := none })
    | none =>
      let errorMsg := "Onboarding seems complete, but I couldn\x27t retrieve the final data."
      let s2 := addMessageToHistory s1 .ai errorMsg
      ({ s2 with currentFlow := none }, { responseText := errorMsg, actions := none })
  else
    match r.nextQuestion with
    | some q =>
      match parseOptions q with
      | some opts =>
        (s1, { responseText := stripOptionsMarker q
               actions := some (opts.map (fun o => ⟨o, o⟩)) })
      | none => (s1, { responseText := q, actions := none })
    | none =>
      let errorMsg :=
        "Sorry, I got stuck during the onboarding process. Could you try starting again?"
      let s2 := addMessageToHistory s1 .ai errorMsg
      ({ s2 with currentFlow := none }, { responseText := errorMsg, actions := none })

/-- The `default` case of the dispatch switch: the parse → triage → praise
pipeline.  A spam verdict short-circuits with the fixed discard notice; a
missing or invalid `praisedMessage` surfaces the specific praise-agent
failure message; otherwise the praised message is appended and returned.
Errors thrown by the three model-backed stages propagate to the router's
top-level catch. -/
def defaultBranch (env : Env) (s : ConversationState) :
    Except String (ConversationState × HandleResponse) := do
  let _ ← env.parseResult
  let triage ← env.triageResult
  if triage.isSpam then
    let spamResponse := "This message appears to be spam and has been discarded."
    return (addMessageToHistory s .ai spamResponse,
            { responseText := spamResponse, actions := none })
  let praise ← env.praiseResult
  match praise with
  | none =>
    let errorResponse := "Sorry, the Praise Agent couldn\x27t process the message correctly."
    return (addMessageToHistory s .ai errorResponse,
            { responseText := errorResponse, actions := none })
  | some p =>
    return (addMessageToHistory s .ai p, { responseText := p, actions := none })

/-- Flow determination plus the dispatch switch (the body of the router's
try block): an already-active flow takes precedence; with no active flow a
start trigger activates its flow, and starting the interview clears the
history.  The third component records the history fed to the Interview
Engine when the onboarding branch ran (specification instrumentation
only). -/
def dispatchFlow (env : Env) (message : String) (s : ConversationState) :
    Except String (ConversationState × HandleResponse × Option (List Message)) :=
  let s1 :=
    if s.currentFlow = none ∧ message = ONBOARDING_TRIGGER then
      { s with currentFlow := some .onboarding, history := [] }
    else if s.currentFlow = none ∧ message = CREATE_PRODUCT_TRIGGER then
      { s with currentFlow := some .create_product }
    else s
  match s1.currentFlow with
  | some .onboarding =>
    let (s2, resp) := onboardingBranch env s1
    .ok (s2, resp, some s1.history)
  | some .create_product =>
    let response := "The \x27Create Product\x27 feature is not implemented yet."
    let s2 := addMessageToHistory s1 .ai response
    .ok ({ s2 with currentFlow := none },
         { responseText := response, actions := none }, none)
  | _ => (defaultBranch env s1).map (fun p => (p.1, p.2, none))

/-- The generic failure message of the router's top-level catch, embedding
the error detail (`error?.message || 'Unknown error'`). -/
def catchMessage (e : String) : String :=
  "Sorry, I encountered an internal error while processing your request. Please try again later. (Details: "
    ++ (if e = "" then "Unknown error" else e) ++ ")"

/-- Result of one `handleUserMessage` call: the state left behind, the
response returned to the UI, and (specification instrumentation only) the
history that was passed to the Interview Engine if it was invoked this
turn. -/
structure HandleResult where
  state : ConversationState
  response : HandleResponse
  engineHistory : Option (List Message)
deriving DecidableEq, Repr

/-- The Flow Router `handleUserMessage` (part_005 revision): the reset and
view-tasklist control tokens are handled first and bypass the dispatch (the
view-tasklist branch deliberately leaves `currentFlow` untouched so an
active flow can continue); otherwise the tagged incoming turn is appended
(unless it is an initial flow trigger), the dispatch runs, and any error
thrown by a dispatched stage is caught at this boundary: the generic
failure message is appended and returned, and `currentFlow` is reset to
none. -/
def handleUserMessage (env : Env) (message : String) (_channel : Channel)
    (s : ConversationState) : HandleResult :=
  if message = RESET_CONVERSATION_TRIGGER then
    { state := resetConversationState
      response := { responseText := "Conversation reset. Feel free to start over."
                    actions := none }
      engineHistory := none }
  else if message = VIEW_TASKLIST_TRIGGER then
    let (s2, taskListText) := fetchAndFormatTasks env s
    { state := addMessageToHistory s2 .ai taskListText
      response := { responseText := taskListText, actions := none }
      engineHistory := none }
  else
    let s1 := preRouteState s message
    match dispatchFlow env message s1 with
    | .ok (s2, resp, eh) => { state := s2, response := resp, engineHistory := eh }
    | .error e =>
      let finalErrorMsg := catchMessage e
      { state := { (addMessageToHistory s1 .ai finalErrorMsg) with currentFlow := none }
        response := { responseText := finalErrorMsg, actions := none }
        engineHistory := none }

/-- Mock database append `internalAddTask` of get-tasks.ts. -/
def internalAddTask (db : List Task) (newTask : Task) : List Task :=
  db ++ [newTask]

/-- A `Partial<Task>` as merged by the object spread in `internalUpdateTask`:
an outer `none` means the property is not present on the updates object (so
the spread keeps the old value); for `dueDate`, `some none` is an own
property holding `undefined`, which the spread copies and thereby clears
the stored due date. -/
structure TaskUpdates where
  id : Option String
  description : Option String
  priority : Option Priority
  dueDate : Option (Option Nat)
  completed : Option Bool
deriving DecidableEq, Repr

/-- The object spread `{ ...task, ...updates }`: every own property of the
updates object overrides the task's value, including an own `dueDate`
property holding `undefined`. -/
def applySpread (t : Task) (u : TaskUpdates) : Task :=
  { id := u.id.getD t.id
    description := u.description.getD t.description
    priority := u.priority.getD t.priority
    dueDate := match u.dueDate with | none => t.dueDate | some v => v
    completed := u.completed.getD t.completed }

/-- Mock database update `internalUpdateTask` of get-tasks.ts: find the
first task with the given id and merge the updates into it by object
spread, returning true; an unknown id returns false and leaves the list
unchanged (the function never throws). -/
def internalUpdateTask (db : List Task) (taskId : String) (updates : TaskUpdates) :
    Bool × List Task :=
  match db with
  | [] => (false, [])
  | t :: rest =>
    if t.id = taskId then (true, applySpread t updates :: rest)
    else
      let r := internalUpdateTask rest taskId updates
      (r.1, t :: r.2)

/-- The `updates` object of `UpdateTaskInputSchema`: each field optional,
and `dueDate` additionally nullable (`some none` is an explicit null that
requests clearing the stored due date). -/
structure UpdateFields where
  description : Option String
  priority : Option Priority
  dueDate : Option (Option Nat)
  completed : Option Bool
deriving DecidableEq, Repr

/-- Input of the `updateTask` flow. -/
structure UpdateTaskInput where
  taskId : String
  updates : UpdateFields
deriving DecidableEq, Repr

/-- Output of the `updateTask` flow. -/
structure UpdateTaskOutput where
  success : Bool
  message : String
deriving DecidableEq, Repr

/-- The Genkit flow `updateTaskFlow` of update-task.ts: copies each
explicitly provided field onto the updates object (for `dueDate`, a
provided value is copied and an explicit null becomes an own property
holding `undefined`, so the spread in `internalUpdateTask` clears the
date), applies `internalUpdateTask`, and reports success or the
not-found message. -/
def updateTaskFlow (db : List Task) (input : UpdateTaskInput) :
    UpdateTaskOutput × List Task :=
  let updatesToApply : TaskUpdates :=
    { id := none
      description := input.updates.description
      priority := input.updates.priority
      dueDate := input.updates.dueDate
      completed := input.updates.completed }
  let r := internalUpdateTask db input.taskId updatesToApply
  ({ success := r.1
     message :=
       if r.1 then "Task " ++ input.taskId ++ " updated successfully."
       else "Task with ID " ++ input.taskId ++ " not found." },
   r.2)

/-- Trivial timestamp rendering used by the concrete test environments. -/
def fmt0 : Nat → String := fun n => toString n

/-- Concrete environment whose interview-prompt oracle follows the
deterministic scan model and whose other stages succeed. -/
def envScan : Env :=
  { promptOutput := fun h => some (interviewScan h)
    parseResult := .ok ()
    triageResult := .ok ⟨"neutral", false, "other", "low", "Customer Support"⟩
    praiseResult := .ok (some "What a great message!")
    addTaskId := .ok "task_1"
    taskDb := []
    now := 1000
    fmtDate := fmt0
    fmtTime := fmt0 }

/-- Concrete environment whose triage stage throws. -/
def envBoom : Env :=
  { envScan with triageResult := .error "model unavailable" }

/-- Concrete environment whose interview prompt returns no output. -/
def envNoOutput : Env :=
  { envScan with promptOutput := fun _ => none }

/-- Concrete environment whose task-store mock database holds one task
(as after a conversation reset, which clears the session-held tasks but
not the task flows' store). -/
def envStore : Env :=
  { envScan with taskDb := [⟨"t1", "write docs", .high, some 1000, false⟩] }

/-- A history left over from an earlier, unrelated conversation. -/
def histDirty : List Message :=
  [⟨.user, "earlier chat"⟩, ⟨.ai, "earlier reply"⟩]

/-- A concrete stored task carrying a due date. -/
def sampleTask : Task := ⟨"t1", "write docs", .high, some 1000, false⟩

/-- A mid-interview history: name and goal answered, the channel question
just asked and not yet answered. -/
def histMid : List Message :=
  [⟨.ai, qName⟩, ⟨.user, "Alice"⟩,
   ⟨.ai, qGoal⟩, ⟨.user, "grow my business"⟩,
   ⟨.ai, qChannel⟩]

/-- A history of a fully completed interview: all four questions validly
answered, followed by the engine's final summary turn. -/
def histDone : List Message :=
  [⟨.ai, qName⟩, ⟨.user, "Alice"⟩,
   ⟨.ai, qGoal⟩, ⟨.user, "grow my business"⟩,
   ⟨.ai, qChannel⟩, ⟨.action, "Email"⟩,
   ⟨.ai, qStripe⟩, ⟨.action, "No"⟩,
   ⟨.ai, "Onboarding complete! Summary delivered."⟩]

theorem ne_of_head_ne (s t : String) (c c2 : Char) (hs : s.data.head? = some c)
    (ht : t.data.head? = some c2) (hcc : c ≠ c2) : s ≠ t := by
  intro h
  rw [h, ht] at hs
  exact hcc (Option.some.inj hs).symm

theorem catchMessage_head (e : String) : (catchMessage e).data.head? = some 'S' := by
  unfold catchMessage
  rw [String.data_append, String.data_append]
  rfl

theorem catchMessage_ne_reset (e : String) :
    catchMessage e ≠ RESET_CONVERSATION_TRIGGER :=
  ne_of_head_ne _ _ 'S' 'R' (catchMessage_head e) (by decide) (by decide)

theorem catchMessage_ne_view (e : String) :
    catchMessage e ≠ VIEW_TASKLIST_TRIGGER :=
  ne_of_head_ne _ _ 'S' 'V' (catchMessage_head e) (by decide) (by decide)

theorem addMessageToHistory_eq (s : ConversationState) (snd : Sender) (t : String)
    (h1 : t ≠ RESET_CONVERSATION_TRIGGER) (h2 : t ≠ VIEW_TASKLIST_TRIGGER) :
    addMessageToHistory s snd t = { s with history := s.history ++ [⟨snd, t⟩] } := by
  unfold addMessageToHistory
  rw [if_neg]
  rintro (h | h)
  · exact h1 h
  · exact h2 h

theorem addMessageToHistory_tasks (s : ConversationState) (snd : Sender) (t : String) :
    (addMessageToHistory s snd t).tasks = s.tasks := by
  unfold addMessageToHistory
  split <;> rfl

theorem addMessageToHistory_currentFlow (s : ConversationState) (snd : Sender) (t : String) :
    (addMessageToHistory s snd t).currentFlow = s.currentFlow := by
  unfold addMessageToHistory
  split <;> rfl

/-- C4: the task draft built by `createOnboardingTask` is a pure function of
the prerequisite answer: `hasStripe = false` yields the create-Stripe-account
task with priority high and a due date five days from now; `hasStripe = true`
yields the connect-account task with priority medium and no due date; an
undefined `hasStripe` yields no draft and `createOnboardingTask` creates no
task and leaves the state unchanged. -/
theorem onboardingTaskDraftPure (now : Nat) (n g c : Option String)
    (env : Env) (s : ConversationState) :
    onboardingTaskDraft ⟨n, g, c, some false⟩ now
        = some ⟨"Create a Stripe account for payment processing.", .high,
                some (addDays now 5)⟩ ∧
    onboardingTaskDraft ⟨n, g, c, some true⟩ now
        = some ⟨"Connect your Stripe account in Settings > Payments.", .medium, none⟩ ∧
    onboardingTaskDraft ⟨n, g, c, none⟩ now = none ∧
    createOnboardingTask env s ⟨n, g, c, none⟩ = s :=
  ⟨rfl, rfl, rfl, rfl⟩

/-- C10: handling the reset token empties the session-held task list as
well, not only `currentFlow` and `history` — `resetConversationState`
replaces the whole state with the initial one, whose `tasks` is `[]`. -/
theorem resetEmptiesTaskList (env : Env) (ch : Channel) (s : ConversationState) :
    (handleUserMessage env RESET_CONVERSATION_TRIGGER ch s).state.tasks = [] := rfl

/-- C7 (amended): handling the reset token clears the session state back to
its initial value (no active flow, empty history, no tasks) and returns the
reset-confirmation text with no actions attached — the greeting and the two
top-level options are restored client-side by the chat UI, not carried in
the handler's response. -/
theorem resetClearsStateAndConfirms (env : Env) (ch : Channel) (s : ConversationState) :
    handleUserMessage env RESET_CONVERSATION_TRIGGER ch s
      = { state := initialConversationState
          response := { responseText := "Conversation reset. Feel free to start over."
                        actions := none }
          engineHistory := none } := rfl

/-- C7 (counterexample): at a concrete non-initial state, the reset response
carries no actions list and its text is the bare confirmation, not a
greeting with the two top-level options. -/
theorem resetResponseNoActionsCounterexample :
    (handleUserMessage envScan RESET_CONVERSATION_TRIGGER .chat
        ⟨some .onboarding, histDirty, [sampleTask]⟩).response.actions = none ∧
    (handleUserMessage envScan RESET_CONVERSATION_TRIGGER .chat
        ⟨some .onboarding, histDirty, [sampleTask]⟩).response.responseText
      = "Conversation reset. Feel free to start over." :=
  ⟨rfl, rfl⟩

/-- C8: updating an unknown task id returns `success = false` without
throwing and leaves the stored list unchanged; updating the first task
carrying a given known id with an explicit null `dueDate` clears that
task's due date and touches nothing else. -/
theorem updateTaskUnknownIdAndClearDueDate (db pre rest : List Task) (t : Task)
    (inp : UpdateTaskInput) :
    ((∀ u ∈ db, u.id ≠ inp.taskId) →
      (updateTaskFlow db inp).1
          = ⟨false, "Task with ID " ++ inp.taskId ++ " not found."⟩ ∧
      (updateTaskFlow db inp).2 = db) ∧
    (db = pre ++ t :: rest → (∀ u ∈ pre, u.id ≠ t.id) →
      updateTaskFlow db ⟨t.id, ⟨none, none, some none, none⟩⟩
        = (⟨true, "Task " ++ t.id ++ " updated successfully."⟩,
           pre ++ { t with dueDate := none } :: rest)) := by
  constructor
  · intro hnone
    have key : internalUpdateTask db inp.taskId
        ⟨none, inp.updates.description, inp.updates.priority,
         inp.updates.dueDate, inp.updates.completed⟩ = (false, db) := by
      induction db with
      | nil => rfl
      | cons u us ih =>
        have hu : u.id ≠ inp.taskId := hnone u (by simp)
        have ihu := ih (fun v hv => hnone v (by simp [hv]))
        simp [internalUpdateTask, hu, ihu]
    simp [updateTaskFlow, key]
  · intro hdb hpre
    subst hdb
    have key : internalUpdateTask (pre ++ t :: rest) t.id
        ⟨none, none, none, some none, none⟩
          = (true, pre ++ { t with dueDate := none } :: rest) := by
      induction pre with
      | nil => simp [internalUpdateTask, applySpread]
      | cons u us ih =>
        have hu : u.id ≠ t.id := hpre u (by simp)
        have ihu := ih (fun v hv => hpre v (by simp [hv]))
        simp [internalUpdateTask, hu, ihu]
    simp [updateTaskFlow, key]

/-- C8 (witness): on a concrete one-task store, the unknown-id update fails
with the store unchanged, and the explicit-null update clears the stored
due date. -/
theorem updateTaskWitness :
    ((updateTaskFlow [sampleTask] ⟨"zz", ⟨some "x", none, none, none⟩⟩).1
        = ⟨false, "Task with ID zz not found."⟩ ∧
      (updateTaskFlow [sampleTask] ⟨"zz", ⟨some "x", none, none, none⟩⟩).2
        = [sampleTask]) ∧
    updateTaskFlow [sampleTask] ⟨"t1", ⟨none, none, some none, none⟩⟩
      = (⟨true, "Task t1 updated successfully."⟩,
         [⟨"t1", "write docs", .high, none, false⟩]) := by
  refine ⟨?_, ?_⟩
  · exact (updateTaskUnknownIdAndClearDueDate [sampleTask] [] [] sampleTask
      ⟨"zz", ⟨some "x", none, none, none⟩⟩).1 (by decide)
  · exact (updateTaskUnknownIdAndClearDueDate [sampleTask] [] [] sampleTask
      ⟨"t1", ⟨none, none, some none, none⟩⟩).2 rfl (by decide)

theorem preRouteState_currentFlow (s : ConversationState) (m : String) :
    (preRouteState s m).currentFlow = s.currentFlow := by
  unfold preRouteState
  split
  · rfl
  · exact addMessageToHistory_currentFlow s (senderTypeOf m) m

theorem preRouteState_tasks (s : ConversationState) (m : String) :
    (preRouteState s m).tasks = s.tasks := by
  unfold preRouteState
  split
  · rfl
  · exact addMessageToHistory_tasks s (senderTypeOf m) m

theorem preRouteState_append (s : ConversationState) (m : String)
    (hm1 : m ≠ RESET_CONVERSATION_TRIGGER) (hm2 : m ≠ VIEW_TASKLIST_TRIGGER)
    (hnot : ¬((m = ONBOARDING_TRIGGER ∧ s.currentFlow ≠ some .onboarding)
        ∨ (m = CREATE_PRODUCT_TRIGGER ∧ s.currentFlow ≠ some .create_product))) :
    preRouteState s m = { s with history := s.history ++ [msgOf m] } := by
  unfold preRouteState
  rw [if_neg hnot]
  exact addMessageToHistory_eq s (senderTypeOf m) m hm1 hm2

theorem dispatchFlow_onboarding (env : Env) (message : String) (s : ConversationState)
    (h : s.currentFlow = some .onboarding) :
    dispatchFlow env message s =
      .ok ((onboardingBranch env s).1, (onboardingBranch env s).2, some s.history) := by
  rcases hob : onboardingBranch env s with ⟨s2, resp⟩
  simp [dispatchFlow, h, hob]

theorem handle_onboarding_eq (env : Env) (m : String) (ch : Channel)
    (s : ConversationState)
    (hm1 : m ≠ RESET_CONVERSATION_TRIGGER) (hm2 : m ≠ VIEW_TASKLIST_TRIGGER)
    (hflow : s.currentFlow = some .onboarding) :
    handleUserMessage env m ch s =
      { state := (onboardingBranch env (preRouteState s m)).1
        response := (onboardingBranch env (preRouteState s m)).2
        engineHistory := some (preRouteState s m).history } := by
  simp only [handleUserMessage, if_neg hm1, if_neg hm2,
    dispatchFlow_onboarding env m (preRouteState s m)
      (by rw [preRouteState_currentFlow, hflow])]

/-- C5: on a malformed completion state of the interview prompt — complete
with `onboardingData` missing, or an invalid channel value present in the
completed data — `conductOnboardingInterviewFlow` raises an error for that
turn (for the invalid channel, already at the zod output-schema boundary)
instead of returning the malformed data. -/
theorem engineFailsLoudlyOnMalformedCompletion (r : RawPromptOutput)
    (hc : r.isComplete = true) :
    (r.onboardingData = none →
      ∃ e, conductOnboardingInterviewFlow (some r) = .error e) ∧
    (∀ d c, r.onboardingData = some d → d.channel = some c → channelValid c = false →
      ∃ e, conductOnboardingInterviewFlow (some r) = .error e) := by
  constructor
  · intro hnone
    have hstep : conductOnboardingInterviewFlow (some r)
        = .error ("Error in conductOnboardingInterviewFlow calling prompt: "
            ++ "Interview marked complete but onboardingData is missing.") := by
      simp only [conductOnboardingInterviewFlow, schemaDecode, validateOutput, hnone, hc]
      simp
    exact ⟨_, hstep⟩
  · intro d c hd hch hval
    have hstep : conductOnboardingInterviewFlow (some r)
        = .error ("Error in conductOnboardingInterviewFlow calling prompt: "
            ++ "Output did not conform to schema: invalid channel value.") := by
      simp only [conductOnboardingInterviewFlow, schemaDecode, hd, hch, hval]
      simp
    exact ⟨_, hstep⟩

/-- C5 (witness): both malformed completion shapes error on concrete
outputs — complete without data, and complete with channel "Phone". -/
theorem engineFailsLoudlyWitness :
    (∃ e, conductOnboardingInterviewFlow
        (some ⟨none, true, none, none⟩) = .error e) ∧
    (∃ e, conductOnboardingInterviewFlow
        (some ⟨none, true, some ⟨some "Alice", some "goal", some "Phone", some true⟩,
              some true⟩) = .error e) := by
  constructor
  · exact (engineFailsLoudlyOnMalformedCompletion ⟨none, true, none, none⟩ rfl).1 rfl
  · exact (engineFailsLoudlyOnMalformedCompletion
        ⟨none, true, some ⟨some "Alice", some "goal", some "Phone", some true⟩, some true⟩
        rfl).2 ⟨some "Alice", some "goal", some "Phone", some true⟩ "Phone" rfl rfl
        (by decide)

theorem conductOnboardingInterview_error (raw : Option RawPromptOutput) (e : String)
    (herr : conductOnboardingInterviewFlow raw = .error e) :
    conductOnboardingInterview raw
      = ⟨some apologyText, true, none, false⟩ := by
  unfold conductOnboardingInterview
  rw [herr]

theorem stripOptionsMarker_apology : stripOptionsMarker apologyText = apologyText := by
  decide

theorem onboardingBranch_apology (env : Env) (s : ConversationState) (e : String)
    (herr : conductOnboardingInterviewFlow (env.promptOutput s.history) = .error e) :
    onboardingBranch env s =
      ({ (addMessageToHistory (addMessageToHistory s .ai apologyText) .ai
            "Onboarding seems complete, but I couldn\x27t retrieve the final data.")
          with currentFlow := none },
       ⟨"Onboarding seems complete, but I couldn\x27t retrieve the final data.", none⟩) := by
  have hco := conductOnboardingInterview_error (env.promptOutput s.history) e herr
  simp only [onboardingBranch, hco, stripOptionsMarker_apology]
  rw [if_pos trivial]

/-- C9: `conductOnboardingInterview` never propagates an exception to the
Flow Router: whenever the inner flow throws it returns `isComplete = true`,
`onboardingData` undefined, `answeredStripe` false and the apology text as
`nextQuestion` — an output that itself violates the complete-implies-answers
engine contract — and the router, receiving it mid-interview, takes its
complete-but-no-data recovery branch: the apology and the recovery message
are appended to history, `currentFlow` is reset to none and the recovery
text is returned with no actions. -/
theorem engineErrorSurfaceAndRouterRecovery (env : Env) (s : ConversationState)
    (m : String) (ch : Channel) (e : String)
    (hflow : s.currentFlow = some .onboarding)
    (hm1 : m ≠ RESET_CONVERSATION_TRIGGER) (hm2 : m ≠ VIEW_TASKLIST_TRIGGER)
    (herr : conductOnboardingInterviewFlow
        (env.promptOutput (preRouteState s m).history) = .error e) :
    conductOnboardingInterview (env.promptOutput (preRouteState s m).history)
        = ⟨some apologyText, true, none, false⟩ ∧
    (handleUserMessage env m ch s).state.currentFlow = none ∧
    (handleUserMessage env m ch s).response
        = ⟨"Onboarding seems complete, but I couldn\x27t retrieve the final data.", none⟩ ∧
    (handleUserMessage env m ch s).state.history
        = (preRouteState s m).history ++
            [⟨.ai, apologyText⟩,
             ⟨.ai, "Onboarding seems complete, but I couldn\x27t retrieve the final data."⟩] := by
  have hh := handle_onboarding_eq env m ch s hm1 hm2 hflow
  have hb := onboardingBranch_apology env (preRouteState s m) e herr
  refine ⟨conductOnboardingInterview_error _ e herr, ?_, ?_, ?_⟩
  · rw [hh, hb]
  · rw [hh, hb]
  · rw [hh, hb]
    show (addMessageToHistory (addMessageToHistory (preRouteState s m) .ai apologyText) .ai
        "Onboarding seems complete, but I couldn\x27t retrieve the final data.").history = _
    rw [addMessageToHistory_eq _ _ _ (by decide) (by decide),
      addMessageToHistory_eq _ _ _ (by decide) (by decide)]
    simp

/-- C9 (witness): with a prompt oracle that returns no output (so the flow
throws), a concrete mid-interview turn surfaces the apology output and the
router's complete-but-no-data recovery. -/
theorem engineErrorSurfaceWitness :
    conductOnboardingInterview
        (envNoOutput.promptOutput (preRouteState ⟨some .onboarding, [⟨.ai, qName⟩], []⟩ "Alice").history)
        = ⟨some apologyText, true, none, false⟩ ∧
    (handleUserMessage envNoOutput "Alice" .chat
        ⟨some .onboarding, [⟨.ai, qName⟩], []⟩).state.currentFlow = none ∧
    (handleUserMessage envNoOutput "Alice" .chat
        ⟨some .onboarding, [⟨.ai, qName⟩], []⟩).response
        = ⟨"Onboarding seems complete, but I couldn\x27t retrieve the final data.", none⟩ ∧
    (handleUserMessage envNoOutput "Alice" .chat
        ⟨some .onboarding, [⟨.ai, qName⟩], []⟩).state.history
        = (preRouteState ⟨some .onboarding, [⟨.ai, qName⟩], []⟩ "Alice").history ++
            [⟨.ai, apologyText⟩,
             ⟨.ai, "Onboarding seems complete, but I couldn\x27t retrieve the final data."⟩] :=
  engineErrorSurfaceAndRouterRecovery envNoOutput ⟨some .onboarding, [⟨.ai, qName⟩], []⟩
    "Alice" .chat _ rfl (by decide) (by decide) rfl

/-- C6 (amended): any error thrown by a dispatched stage is caught at the
router boundary and the call returns normally: the generic failure message
embedding the error detail is appended to history and returned as the
response text, and `currentFlow` is force-reset to none — but the returned
response carries no actions (the top-level options are re-rendered by the
chat UI client side, not attached by the handler). -/
theorem routerCatchesStageErrors (env : Env) (m : String) (ch : Channel)
    (s : ConversationState) (e : String)
    (hm1 : m ≠ RESET_CONVERSATION_TRIGGER) (hm2 : m ≠ VIEW_TASKLIST_TRIGGER)
    (herr : dispatchFlow env m (preRouteState s m) = .error e) :
    handleUserMessage env m ch s =
      { state := { currentFlow := none
                   history := (preRouteState s m).history ++ [⟨.ai, catchMessage e⟩]
                   tasks := (preRouteState s m).tasks }
        response := { responseText := catchMessage e, actions := none }
        engineHistory := none } := by
  simp only [handleUserMessage, if_neg hm1, if_neg hm2, herr]
  rw [addMessageToHistory_eq _ _ _ (catchMessage_ne_reset e) (catchMessage_ne_view e)]

/-- C6 (witness): a concrete turn whose triage stage throws is caught and
yields the failure response with the flow reset. -/
theorem routerCatchesStageErrorsWitness :
    handleUserMessage envBoom "hello" .chat initialConversationState =
      { state := { currentFlow := none
                   history := (preRouteState initialConversationState "hello").history
                       ++ [⟨.ai, catchMessage "model unavailable"⟩]
                   tasks := (preRouteState initialConversationState "hello").tasks }
        response := { responseText := catchMessage "model unavailable", actions := none }
        engineHistory := none } :=
  routerCatchesStageErrors envBoom "hello" .chat initialConversationState
    "model unavailable" (by decide) (by decide) rfl

/-- C6 (counterexample): at a concrete input on which the triage stage
throws, the returned response carries no actions at all — the claimed
re-offered start-interview and start-placeholder options are absent from the
handler's response. -/
theorem catchReturnsNoActionsCounterexample :
    dispatchFlow envBoom "hello" (preRouteState initialConversationState "hello")
        = .error "model unavailable" ∧
    (handleUserMessage envBoom "hello" .chat initialConversationState).response.actions
        = none :=
  ⟨rfl, rfl⟩

theorem dispatchFlow_onb_trigger (env : Env) (s : ConversationState)
    (hflow : s.currentFlow = none) :
    dispatchFlow env ONBOARDING_TRIGGER s =
      .ok ((onboardingBranch env ⟨some .onboarding, [], s.tasks⟩).1,
           (onboardingBranch env ⟨some .onboarding, [], s.tasks⟩).2, some []) := by
  rcases hob : onboardingBranch env ⟨some .onboarding, [], s.tasks⟩ with ⟨s2, resp⟩
  simp [dispatchFlow, hflow, hob]

/-- C3: with no active flow, the start-interview token activates the
interview flow and clears the history before the Interview Engine is
invoked: the whole turn reduces to the onboarding branch run on the state
whose `currentFlow` is `onboarding`, whose history is empty and whose tasks
are untouched, and the engine receives the empty history — a fresh
interview never sees turns from an earlier conversation. -/
theorem startInterviewClearsHistory (env : Env) (ch : Channel)
    (s : ConversationState) (hflow : s.currentFlow = none) :
    handleUserMessage env ONBOARDING_TRIGGER ch s =
      { state := (onboardingBranch env ⟨some .onboarding, [], s.tasks⟩).1
        response := (onboardingBranch env ⟨some .onboarding, [], s.tasks⟩).2
        engineHistory := some [] } := by
  have hpre : preRouteState s ONBOARDING_TRIGGER = s := by
    unfold preRouteState
    rw [if_pos (Or.inl ⟨rfl, by rw [hflow]; simp⟩)]
  simp only [handleUserMessage, if_neg (by decide :
      ¬(ONBOARDING_TRIGGER = RESET_CONVERSATION_TRIGGER)),
    if_neg (by decide : ¬(ONBOARDING_TRIGGER = VIEW_TASKLIST_TRIGGER)),
    hpre, dispatchFlow_onb_trigger env s hflow]

/-- C3 (witness): starting the interview from a dirty prior conversation
reduces to the onboarding branch on an empty history, and the fresh
interview opens with the name question. -/
theorem startInterviewWitness :
    (handleUserMessage envScan ONBOARDING_TRIGGER .chat ⟨none, histDirty, [sampleTask]⟩ =
      { state := (onboardingBranch envScan ⟨some .onboarding, [], [sampleTask]⟩).1
        response := (onboardingBranch envScan ⟨some .onboarding, [], [sampleTask]⟩).2
        engineHistory := some [] }) ∧
    (handleUserMessage envScan ONBOARDING_TRIGGER .chat
        ⟨none, histDirty, [sampleTask]⟩).response = ⟨qName, none⟩ ∧
    (handleUserMessage envScan ONBOARDING_TRIGGER .chat
        ⟨none, histDirty, [sampleTask]⟩).state.history = [⟨.ai, qName⟩] :=
  ⟨startInterviewClearsHistory envScan .chat ⟨none, histDirty, [sampleTask]⟩ rfl,
   by decide, by decide⟩

theorem schemaDecode_ok (raw r2 : RawPromptOutput) (h : schemaDecode raw = .ok r2) :
    r2 = raw := by
  unfold schemaDecode at h
  rcases hd : raw.onboardingData with _ | d <;> simp only [hd] at h
  · cases h; rfl
  · rcases hc : d.channel with _ | c <;> simp only [hc] at h
    · cases h; rfl
    · by_cases hv : channelValid c = true
      · rw [if_pos hv] at h; cases h; rfl
      · rw [if_neg hv] at h; cases h

theorem conduct_flow_ok_case (raw r2 : RawPromptOutput)
    (hsd : schemaDecode raw = .ok r2) :
    conductOnboardingInterviewFlow (some raw) =
      (match validateOutput r2 with
       | .error e => .error ("Error in conductOnboardingInterviewFlow calling prompt: " ++ e)
       | .ok v => .ok v) := by
  simp only [conductOnboardingInterviewFlow, hsd]

theorem validateOutput_answeredStripe (raw : RawPromptOutput) (v : FlowOutput)
    (hr : raw.answeredStripe ≠ some true) (hv : validateOutput raw = .ok v) :
    v.answeredStripe = false := by
  unfold validateOutput at hv
  by_cases hc : raw.isComplete = true
  · rw [if_pos hc] at hv
    rcases hd : raw.onboardingData with _ | d <;> simp only [hd] at hv
    · cases hv
    · by_cases hs : raw.answeredStripe = some true ∧ d.hasStripe = none
      · rw [if_pos hs] at hv; cases hv
      · rw [if_neg hs] at hv
        cases hv
        exact decide_eq_false hr
  · rw [if_neg hc] at hv
    rcases hq : raw.nextQuestion with _ | q <;> simp only [hq] at hv
    · cases hv
    · by_cases ht : jsTrim q = ""
      · rw [if_pos ht] at hv; cases hv
      · rw [if_neg ht] at hv; cases hv; rfl

theorem conduct_answeredStripe_false (raw : RawPromptOutput)
    (hr : raw.answeredStripe ≠ some true) :
    (conductOnboardingInterview (some raw)).answeredStripe = false := by
  unfold conductOnboardingInterview
  rcases hsd : schemaDecode raw with e | r2
  · have hf : conductOnboardingInterviewFlow (some raw)
        = .error ("Error in conductOnboardingInterviewFlow calling prompt: " ++ e) := by
      simp only [conductOnboardingInterviewFlow, hsd]
    rw [hf]
  · have hr2 := schemaDecode_ok raw r2 hsd
    subst hr2
    rw [conduct_flow_ok_case r2 r2 hsd]
    rcases hvo : validateOutput r2 with e2 | v
    · rfl
    · exact validateOutput_answeredStripe r2 v hr hvo

theorem interviewScan_answeredStripe_ne (h : List Message)
    (hj : stripeJustAnswered h = false) :
    (interviewScan h).answeredStripe ≠ some true := by
  unfold interviewScan
  rcases hacc : h.foldl scanStep scanInit with ⟨ph, a, b, c, d⟩
  cases ph <;> simp [askOutput, hj]

theorem onboardingBranch_tasks_of_noStripe (env : Env) (s : ConversationState)
    (hstripe : (conductOnboardingInterview
        (env.promptOutput s.history)).answeredStripe = false) :
    (onboardingBranch env s).1.tasks = s.tasks := by
  rcases hr : conductOnboardingInterview (env.promptOutput s.history) with ⟨nq, ic, od, as⟩
  rw [hr] at hstripe
  simp only at hstripe
  subst hstripe
  simp only [onboardingBranch, hr]
  rcases nq with _ | q <;> rcases ic <;> rcases od with _ | d <;>
    simp [addMessageToHistory_tasks] <;>
    rcases parseOptions q with _ | opts <;> simp [addMessageToHistory_tasks]

/-- C1: the follow-up task is created only on the turn on which the Stripe
question was actually answered.  When the engine model derives its verdict
from a history whose most recent turn pair is not the Stripe question
followed by a Yes/No answer (in particular when an already-complete history
is re-evaluated), the engine reports `answeredStripe = false` through the
flow's normalisation, and the Flow Router, gated on `answeredStripe ===
true`, performs no task creation: the session's task list is unchanged, so
task creation cannot fire twice for one completed interview. -/
theorem taskCreationOnlyOnAnswerTurn (env : Env) (s : ConversationState)
    (m : String) (ch : Channel)
    (hflow : s.currentFlow = some .onboarding)
    (hm1 : m ≠ RESET_CONVERSATION_TRIGGER) (hm2 : m ≠ VIEW_TASKLIST_TRIGGER)
    (hm4 : m ≠ CREATE_PRODUCT_TRIGGER)
    (hpr : ∀ hist, env.promptOutput hist = some (interviewScan hist))
    (hjust : stripeJustAnswered (s.history ++ [msgOf m]) = false) :
    (conductOnboardingInterview
        (env.promptOutput (s.history ++ [msgOf m]))).answeredStripe = false ∧
    (handleUserMessage env m ch s).state.tasks = s.tasks := by
  have hpre : preRouteState s m = { s with history := s.history ++ [msgOf m] } :=
    preRouteState_append s m hm1 hm2 (by
      rintro (⟨_, hne⟩ | ⟨hmc, _⟩)
      · exact hne hflow
      · exact hm4 hmc)
  have hengine : (conductOnboardingInterview
      (env.promptOutput (s.history ++ [msgOf m]))).answeredStripe = false := by
    rw [hpr]
    exact conduct_answeredStripe_false _ (interviewScan_answeredStripe_ne _ hjust)
  refine ⟨hengine, ?_⟩
  rw [handle_onboarding_eq env m ch s hm1 hm2 hflow]
  show (onboardingBranch env (preRouteState s m)).1.tasks = s.tasks
  have := onboardingBranch_tasks_of_noStripe env (preRouteState s m) (by
    rw [hpre]
    exact hengine)
  rw [this, preRouteState_tasks]

/-- C1 (witness): on a concrete already-complete history (all four answers
plus the final summary turn), a further ordinary message still derives
`isComplete`, the engine reports `answeredStripe = false`, and the router
leaves the stored task list untouched. -/
theorem taskCreationOnlyOnAnswerTurnWitness :
    (interviewScan (histDone ++ [msgOf "hello"])).isComplete = true ∧
    (conductOnboardingInterview
        (envScan.promptOutput (histDone ++ [msgOf "hello"]))).answeredStripe = false ∧
    (handleUserMessage envScan "hello" .chat
        ⟨some .onboarding, histDone, [sampleTask]⟩).state.tasks = [sampleTask] := by
  have h := taskCreationOnlyOnAnswerTurn envScan
    ⟨some .onboarding, histDone, [sampleTask]⟩ "hello" .chat rfl
    (by decide) (by decide) (by decide) (fun _ => rfl) (by decide)
  exact ⟨by decide, h.1, h.2⟩

theorem dropWhile_append_last (p : Char → Bool) (c : Char) (hc : p c = false)
    (x : List Char) : ∃ y, (x ++ [c]).dropWhile p = y ++ [c] := by
  induction x with
  | nil => exact ⟨[], by simp [List.dropWhile, hc]⟩
  | cons a t ih =>
    by_cases ha : p a = true
    · simpa [List.dropWhile_cons, ha] using ih
    · exact ⟨a :: t, by simp [List.dropWhile_cons, ha]⟩

theorem jsTrim_head (s : String) (c : Char) (l : List Char)
    (hs : s.data = c :: l) (hc : c.isWhitespace = false) :
    ∃ l2, (jsTrim s).data = c :: l2 := by
  unfold jsTrim
  rw [hs]
  have h1 : (c :: l).dropWhile Char.isWhitespace = c :: l := by
    simp [List.dropWhile_cons, hc]
  rw [h1, List.reverse_cons]
  obtain ⟨y, hy⟩ := dropWhile_append_last Char.isWhitespace c hc l.reverse
  rw [hy, List.reverse_append]
  exact ⟨y.reverse, rfl⟩

theorem fetchAndFormatTasks_state (env : Env) (s : ConversationState) :
    (fetchAndFormatTasks env s).1 = { s with tasks := env.taskDb } := by
  simp only [fetchAndFormatTasks, getTasksFlow]
  split <;> rfl

theorem taskListText_head (env : Env) (s : ConversationState) :
    (fetchAndFormatTasks env s).2.data.head? = some 'Y' ∨
    (fetchAndFormatTasks env s).2.data.head? = some 'H' := by
  simp only [fetchAndFormatTasks, getTasksFlow]
  split
  · left; rfl
  · right
    have hdata : ("Here is your current task list:\n\n"
        ++ String.join ((env.taskDb.enum).map
            (fun p => formatTaskEntry env p.1 p.2))).data
        = 'H' :: ("ere is your current task list:\n\n".data
            ++ (String.join ((env.taskDb.enum).map
                (fun p => formatTaskEntry env p.1 p.2))).data) := by
      rw [String.data_append]
      rfl
    obtain ⟨l2, hl2⟩ := jsTrim_head _ 'H' _ hdata (by decide)
    rw [hl2]
    rfl

theorem taskListText_ne_all (env : Env) (s : ConversationState) :
    (fetchAndFormatTasks env s).2 ≠ RESET_CONVERSATION_TRIGGER ∧
    (fetchAndFormatTasks env s).2 ≠ VIEW_TASKLIST_TRIGGER ∧
    (fetchAndFormatTasks env s).2 ≠ qName ∧
    (fetchAndFormatTasks env s).2 ≠ qGoal ∧
    (fetchAndFormatTasks env s).2 ≠ qChannel ∧
    (fetchAndFormatTasks env s).2 ≠ qStripe := by
  rcases taskListText_head env s with hh | hh <;>
    exact ⟨ne_of_head_ne _ _ _ 'R' hh (by decide) (by decide),
           ne_of_head_ne _ _ _ 'V' hh (by decide) (by decide),
           ne_of_head_ne _ _ _ 'W' hh (by decide) (by decide),
           ne_of_head_ne _ _ _ 'W' hh (by decide) (by decide),
           ne_of_head_ne _ _ _ 'W' hh (by decide) (by decide),
           ne_of_head_ne _ _ _ 'D' hh (by decide) (by decide)⟩

theorem viewTasks_eq (env : Env) (ch : Channel) (s : ConversationState) :
    handleUserMessage env VIEW_TASKLIST_TRIGGER ch s =
      { state := { s with history := s.history
            ++ [⟨.ai, (fetchAndFormatTasks env s).2⟩], tasks := env.taskDb }
        response := { responseText := (fetchAndFormatTasks env s).2, actions := none }
        engineHistory := none } := by
  obtain ⟨hne1, hne2, -, -, -, -⟩ := taskListText_ne_all env s
  have hst := fetchAndFormatTasks_state env s
  simp only [handleUserMessage, if_neg (by decide :
      ¬(VIEW_TASKLIST_TRIGGER = RESET_CONVERSATION_TRIGGER)), if_pos rfl]
  rcases hf : fetchAndFormatTasks env s with ⟨s2, txt⟩
  rw [hf] at hst hne1 hne2
  simp only at hst
  subst hst
  rw [addMessageToHistory_eq _ .ai txt hne1 hne2]
  simp

theorem scanStep_ai_other (acc : ScanAcc) (t : String)
    (h1 : t ≠ qName) (h2 : t ≠ qGoal) (h3 : t ≠ qChannel) (h4 : t ≠ qStripe) :
    scanStep acc ⟨.ai, t⟩ = acc := by
  rcases acc with ⟨ph, a, b, c, d⟩
  cases ph <;> simp [scanStep, isReply, h1, h2, h3, h4]

theorem interviewScan_nextQuestion_stable (h : List Message) (t : String) (x : Message)
    (h1 : t ≠ qName) (h2 : t ≠ qGoal) (h3 : t ≠ qChannel) (h4 : t ≠ qStripe) :
    (interviewScan ((h ++ [(⟨.ai, t⟩ : Message)]) ++ [x])).nextQuestion
      = (interviewScan (h ++ [x])).nextQuestion := by
  have hacc : ((h ++ [(⟨.ai, t⟩ : Message)]) ++ [x]).foldl scanStep scanInit
      = (h ++ [x]).foldl scanStep scanInit := by
    rw [List.foldl_append, List.foldl_append, List.foldl_append]
    simp [List.foldl, scanStep_ai_other _ t h1 h2 h3 h4]
  unfold interviewScan
  rw [hacc]
  rcases (h ++ [x]).foldl scanStep scanInit with ⟨ph, a, b, c, d⟩
  cases ph <;> rfl

/-- C2 (counterexample): the view-tasks turn does modify a session-state
field other than history.  At a concrete mid-interview state whose
session-held task list is empty while the Task Store's mock database holds
one task (exactly the situation a conversation reset leaves behind, since
reset clears the session tasks but not the store), handling the view-tasks
token reassigns the session's `tasks` field from the store: it changes from
`[]` to the store's one-task list. -/
theorem viewTasksModifiesTasksCounterexample :
    (handleUserMessage envStore VIEW_TASKLIST_TRIGGER .chat
        ⟨some .onboarding, histMid, []⟩).state.tasks = [sampleTask] ∧
    [sampleTask] ≠ ([] : List Task) :=
  ⟨rfl, by decide⟩

/-- C2 (amended): with an interview mid-flight, handling the view-tasks
token returns the formatted task list and leaves `currentFlow` untouched;
history gains the formatted list as an agent turn, and the session's
`tasks` field is reassigned from the Task Store's contents (so it may
change when the two have diverged); no other field of session state is
modified.  The very next ordinary message is dispatched to the Interview
Engine on the history extended by that turn, and the engine model asks the
same question it would have asked without the interposed task-list turn:
the interview resumes where it was. -/
theorem viewTasksMidInterviewFrame (env env2 : Env) (ch ch2 : Channel)
    (s : ConversationState) (m : String)
    (hflow : s.currentFlow = some .onboarding)
    (hm1 : m ≠ RESET_CONVERSATION_TRIGGER) (hm2 : m ≠ VIEW_TASKLIST_TRIGGER)
    (hm3 : m ≠ ONBOARDING_TRIGGER) (hm4 : m ≠ CREATE_PRODUCT_TRIGGER) :
    (handleUserMessage env VIEW_TASKLIST_TRIGGER ch s).state.currentFlow
        = some .onboarding ∧
    (handleUserMessage env VIEW_TASKLIST_TRIGGER ch s).state.tasks = env.taskDb ∧
    (handleUserMessage env VIEW_TASKLIST_TRIGGER ch s).state.history
        = s.history ++ [⟨.ai,
            (handleUserMessage env VIEW_TASKLIST_TRIGGER ch s).response.responseText⟩] ∧
    (handleUserMessage env VIEW_TASKLIST_TRIGGER ch s).response.actions = none ∧
    (handleUserMessage env2 m ch2
        (handleUserMessage env VIEW_TASKLIST_TRIGGER ch s).state).engineHistory
      = some ((handleUserMessage env VIEW_TASKLIST_TRIGGER ch s).state.history
          ++ [msgOf m]) ∧
    (interviewScan ((handleUserMessage env VIEW_TASKLIST_TRIGGER ch s).state.history
        ++ [msgOf m])).nextQuestion
      = (interviewScan (s.history ++ [msgOf m])).nextQuestion := by
  obtain ⟨-, -, hq1, hq2, hq3, hq4⟩ := taskListText_ne_all env s
  rw [viewTasks_eq env ch s]
  refine ⟨hflow, rfl, rfl, rfl, ?_, ?_⟩
  · have hflow2 : ({ s with history := s.history
        ++ [⟨.ai, (fetchAndFormatTasks env s).2⟩], tasks := env.taskDb }
          : ConversationState).currentFlow = some .onboarding := hflow
    rw [handle_onboarding_eq env2 m ch2 _ hm1 hm2 hflow2,
      preRouteState_append _ m hm1 hm2 (by
        rintro (⟨hmo, _⟩ | ⟨hmc, _⟩)
        · exact hm3 hmo
        · exact hm4 hmc)]
  · exact interviewScan_nextQuestion_stable s.history _ (msgOf m) hq1 hq2 hq3 hq4

/-- C2 (witness): a concrete mid-interview state at the channel question,
with an empty session task list and a one-task store: viewing the task list
leaves `currentFlow` untouched, reassigns the session tasks from the
store, appends the formatted list to history, and the next answer "Email"
reaches the engine, which asks the same (Stripe) question it would have
asked had the list never been shown. -/
theorem viewTasksMidInterviewWitness :
    (handleUserMessage envStore VIEW_TASKLIST_TRIGGER .chat
        ⟨some .onboarding, histMid, []⟩).state.currentFlow
        = some .onboarding ∧
    (handleUserMessage envStore VIEW_TASKLIST_TRIGGER .chat
        ⟨some .onboarding, histMid, []⟩).state.tasks = envStore.taskDb ∧
    (handleUserMessage envStore VIEW_TASKLIST_TRIGGER .chat
        ⟨some .onboarding, histMid, []⟩).state.history
        = histMid ++ [⟨.ai, (handleUserMessage envStore VIEW_TASKLIST_TRIGGER .chat
            ⟨some .onboarding, histMid, []⟩).response.responseText⟩] ∧
    (handleUserMessage envStore VIEW_TASKLIST_TRIGGER .chat
        ⟨some .onboarding, histMid, []⟩).response.actions = none ∧
    (handleUserMessage envStore "Email" .chat
        (handleUserMessage envStore VIEW_TASKLIST_TRIGGER .chat
          ⟨some .onboarding, histMid, []⟩).state).engineHistory
      = some ((handleUserMessage envStore VIEW_TASKLIST_TRIGGER .chat
          ⟨some .onboarding, histMid, []⟩).state.history
            ++ [msgOf "Email"]) ∧
    (interviewScan ((handleUserMessage envStore VIEW_TASKLIST_TRIGGER .chat
        ⟨some .onboarding, histMid, []⟩).state.history
          ++ [msgOf "Email"])).nextQuestion
      = (interviewScan (histMid ++ [msgOf "Email"])).nextQuestion :=
  viewTasksMidInterviewFrame envStore envStore .chat .chat
    ⟨some .onboarding, histMid, []⟩ "Email" rfl
    (by decide) (by decide) (by decide) (by decide)

end Fassimo
